import Mathlib

/-!
Verification of the Docker4Iran endpoint-selection scripts
(`dns_selector.py` and `mirror_selector.py`).

The probing, aggregation, ranking, scheduling-collection and interactive
selection logic of the two scripts is shallowly embedded below.  Network
and subprocess effects are abstracted as explicit outcome values (an
"oracle" argument standing for the observed behaviour of `nslookup` /
`requests.get`), elapsed times are rationals with `⊤ : WithTop ℚ`
standing for Python's `float('inf')` sentinel, and the interactive input
stream is an explicit list of operator events.
-/

namespace Docker4Iran

/-- Elapsed durations: a finite rational number of seconds, or the
`float('inf')` sentinel (`⊤`). -/
abbrev Time := WithTop ℚ

/-- Outcome of one `subprocess.run(['nslookup', domain, dns_server], ...)`
call as observed by `_test_dns_resolution` (dns_selector.py:45-70):
either the process completed (with a return code, a flag telling whether
`"NXDOMAIN"` occurred in its stdout, and the measured wall-clock elapsed
time), or it raised `TimeoutExpired` / `SubprocessError` / another
exception. -/
inductive SubprocOutcome where
  | completed (returncode : ℤ) (nxdomainInStdout : Bool) (elapsed : ℚ)
  | timeoutExpired
  | subprocessError
  | otherException
deriving DecidableEq, Repr

/-- Outcome of one `requests.get(...)` call as observed by
`_test_registry_connectivity` / `_test_docker_hub_connectivity`
(mirror_selector.py:70-120): an HTTP response with a status code and
measured elapsed time, or any raised exception. -/
inductive HttpOutcome where
  | response (status : ℕ) (elapsed : ℚ)
  | exception
deriving DecidableEq, Repr

/-- Embeds `DNSSelector._test_dns_resolution` (dns_selector.py:45-70): success
iff the `nslookup` subprocess completed with return code 0 and its stdout
does not contain `"NXDOMAIN"`; on success the measured elapsed time is
returned, on every failure or exception `(False, float('inf'))`. -/
def _test_dns_resolution (o : SubprocOutcome) : Bool × Time :=
  match o with
  | .completed rc nx t => if rc = 0 ∧ nx = false then (true, (t : Time)) else (false, ⊤)
  | .timeoutExpired => (false, ⊤)
  | .subprocessError => (false, ⊤)
  | .otherException => (false, ⊤)

/-- The general test domains (dns_selector.py:20-25). -/
def test_domains : List String := ["google.com", "github.com", "docker.com", "ubuntu.com"]

/-- The Docker-specific test domains (dns_selector.py:26-30). -/
def docker_domains : List String := ["download.docker.com", "registry-1.docker.io", "auth.docker.io"]

/-- A DNS probe oracle: the observed outcome of the `nslookup` invocation
for a given DNS server address and domain. -/
abbrev DnsOracle := String → String → SubprocOutcome

/-- Division `total / n` on durations: finite durations are divided, the sentinel
is preserved (in the scripts this division is only reached with a finite
total and a positive count). -/
def divCount (t : Time) (n : ℕ) : Time := t.map (fun q => q / (n : ℚ))

/-- Scaling `t * c` on durations, used for the 1.5-weighting of the hub time
(mirror_selector.py:157). -/
def mulConst (t : Time) (c : ℚ) : Time := t.map (fun q => q * c)

/-- The `docker_results` dict built by `_test_docker_connectivity`
(dns_selector.py:72-104). -/
structure DockerResults where
  docker_success_count : ℕ
  docker_total_time : Time
  docker_avg_time : Time
  docker_success_rate : ℚ
  docker_working : Bool
  docker_details : List (String × Bool × Time)
deriving DecidableEq, Repr

/-- Embeds `DNSSelector._test_docker_connectivity` (dns_selector.py:72-104):
probes each Docker domain through `dns_server`, collects successful
response times, and fills the aggregate fields only when at least one
probe succeeded (otherwise the initial values `0 / inf / 0 / False`
remain).  The `'timeout'` string stored for failed details is modelled as
the `⊤` sentinel. -/
def _test_docker_connectivity (oracle : DnsOracle) (dns_server : String) : DockerResults :=
  let probes := docker_domains.map (fun d => (d, _test_dns_resolution (oracle dns_server d)))
  let successful_docker_tests := probes.filterMap (fun p => if p.2.1 then some p.2.2 else none)
  let docker_success_count := (probes.filter (fun p => p.2.1)).length
  let docker_details := probes.map (fun p => (p.1, p.2.1, if p.2.1 then p.2.2 else (⊤ : Time)))
  if successful_docker_tests.isEmpty then
    { docker_success_count := docker_success_count
      docker_total_time := 0
      docker_avg_time := ⊤
      docker_success_rate := 0
      docker_working := false
      docker_details := docker_details }
  else
    let docker_total_time := successful_docker_tests.sum
    let docker_success_rate : ℚ := (docker_success_count : ℚ) / (docker_domains.length : ℚ) * 100
    { docker_success_count := docker_success_count
      docker_total_time := docker_total_time
      docker_avg_time := divCount docker_total_time successful_docker_tests.length
      docker_success_rate := docker_success_rate
      docker_working := decide (66 ≤ docker_success_rate)
      docker_details := docker_details }

/-- The merged `results` dict returned by `_test_dns_server`
(dns_selector.py:106-143): general-battery fields plus the
`docker_results` fields merged in by `results.update(docker_results)`. -/
structure DnsStats where
  name : String
  primary : String
  secondary : String
  success_count : ℕ
  total_time : Time
  avg_time : Time
  success_rate : ℚ
  working : Bool
  docker_success_count : ℕ
  docker_total_time : Time
  docker_avg_time : Time
  docker_success_rate : ℚ
  docker_working : Bool
  docker_details : List (String × Bool × Time)
deriving DecidableEq, Repr

/-- Embeds `DNSSelector._test_dns_server` (dns_selector.py:106-143): probes the
general domains and the Docker domains, both only through the primary
address; the secondary address is merely copied into the result. -/
def _test_dns_server (oracle : DnsOracle) (server_name primary_dns secondary_dns : String) :
    DnsStats :=
  let probes := test_domains.map (fun d => _test_dns_resolution (oracle primary_dns d))
  let successful_tests := probes.filterMap (fun p => if p.1 then some p.2 else none)
  let success_count := (probes.filter (fun p => p.1)).length
  let d := _test_docker_connectivity oracle primary_dns
  if successful_tests.isEmpty then
    { name := server_name, primary := primary_dns, secondary := secondary_dns
      success_count := success_count
      total_time := 0
      avg_time := ⊤
      success_rate := 0
      working := false
      docker_success_count := d.docker_success_count
      docker_total_time := d.docker_total_time
      docker_avg_time := d.docker_avg_time
      docker_success_rate := d.docker_success_rate
      docker_working := d.docker_working
      docker_details := d.docker_details }
  else
    let total_time := successful_tests.sum
    let success_rate : ℚ := (success_count : ℚ) / (test_domains.length : ℚ) * 100
    { name := server_name, primary := primary_dns, secondary := secondary_dns
      success_count := success_count
      total_time := total_time
      avg_time := divCount total_time successful_tests.length
      success_rate := success_rate
      working := decide (50 ≤ success_rate)
      docker_success_count := d.docker_success_count
      docker_total_time := d.docker_total_time
      docker_avg_time := d.docker_avg_time
      docker_success_rate := d.docker_success_rate
      docker_working := d.docker_working
      docker_details := d.docker_details }

/-- The result-collection loop of `test_all_dns_servers`
(dns_selector.py:153-176): futures are consumed in completion order; a
future that completed normally has its result appended, a future whose
`.result()` raises only has an error message printed — nothing is
appended for it.  The argument is the completion-ordered list of
per-endpoint task outcomes (`Except` errors standing for uncaught
exceptions inside `_test_dns_server`). -/
def test_all_dns_servers (completed : List (String × Except String DnsStats)) : List DnsStats :=
  completed.foldl
    (fun results f =>
      match f.2 with
      | .ok r => results ++ [r]
      | .error _ => results)
    []

/-- The sort key used on `working_servers` in `select_dns_interactive`
(dns_selector.py:195): the Python tuple
`(not docker_working, docker_avg_time, avg_time)` under lexicographic
comparison (`False < True` for booleans, `inf` greater than every finite
float). -/
def dnsSortKey (r : DnsStats) : Bool ×ₗ (Time ×ₗ Time) :=
  toLex (!r.docker_working, toLex (r.docker_avg_time, r.avg_time))

/-- The comparison relation realised by `working_servers.sort(key=...)`
(dns_selector.py:195). -/
def dnsKeyRel (a b : DnsStats) : Prop := dnsSortKey a ≤ dnsSortKey b

instance : DecidableRel dnsKeyRel :=
  fun a b => inferInstanceAs (Decidable (dnsSortKey a ≤ dnsSortKey b))

instance : IsTotal DnsStats dnsKeyRel := ⟨fun a b => le_total (dnsSortKey a) (dnsSortKey b)⟩

instance : IsTrans DnsStats dnsKeyRel := ⟨fun _ _ _ hab hbc => le_trans hab hbc⟩

/-- The filter-then-sort ranking step of `select_dns_interactive`
(dns_selector.py:187-195): keep the servers whose `working` flag is set
and stable-sort them by `dnsSortKey` (Python's `list.sort` is stable;
stable insertion sort realises the same ordering). -/
def rank_working_servers (results : List DnsStats) : List DnsStats :=
  List.insertionSort dnsKeyRel (results.filter (fun r => r.working))

/-- The per-mirror `results` dict built by `_test_single_registry`
(mirror_selector.py:122-166). -/
structure RegStats where
  name : String
  mirror : String
  insecure : Bool
  connectivity_success : Bool
  connectivity_time : Time
  hub_success : Bool
  hub_time : Time
  total_score : Time
  status : String
deriving DecidableEq, Repr

/-- Embeds `InteractiveRegistrySelector._test_registry_connectivity`
(mirror_selector.py:70-92): a GET of `<mirror>/v2/`; status codes 200,
401 and 404 count as success with the measured elapsed time, anything
else — and any exception — yields `(False, float('inf'))`. -/
def _test_registry_connectivity (o : HttpOutcome) : Bool × Time :=
  match o with
  | .response status elapsed =>
      if status ∈ [200, 401, 404] then (true, (elapsed : Time)) else (false, ⊤)
  | .exception => (false, ⊤)

/-- Embeds `InteractiveRegistrySelector._test_docker_hub_connectivity`
(mirror_selector.py:94-120): a GET of the `hello-world` manifest through
the mirror; the same acceptance rule and failure mapping as the
connectivity check. -/
def _test_docker_hub_connectivity (o : HttpOutcome) : Bool × Time :=
  match o with
  | .response status elapsed =>
      if status ∈ [200, 401, 404] then (true, (elapsed : Time)) else (false, ⊤)
  | .exception => (false, ⊤)

/-- Embeds `InteractiveRegistrySelector._test_single_registry`
(mirror_selector.py:122-166): run the connectivity check; only if it
succeeds, run the hub check; only if that also succeeds, compute
`total_score = conn_time + hub_time * 1.5` and set status `'Working'`.
The arguments `co`/`ho` are the observed outcomes of the two HTTP
requests (the hub request is only issued in the branch that uses `ho`). -/
def _test_single_registry (co ho : HttpOutcome) (name mirror : String) (insecure : Bool) :
    RegStats :=
  let conn := _test_registry_connectivity co
  if conn.1 then
    let hub := _test_docker_hub_connectivity ho
    if hub.1 then
      { name := name, mirror := mirror, insecure := insecure
        connectivity_success := conn.1, connectivity_time := conn.2
        hub_success := hub.1, hub_time := hub.2
        total_score := conn.2 + mulConst hub.2 (3/2)
        status := "Working" }
    else
      { name := name, mirror := mirror, insecure := insecure
        connectivity_success := conn.1, connectivity_time := conn.2
        hub_success := hub.1, hub_time := hub.2
        total_score := ⊤
        status := "Hub Access Failed" }
  else
    { name := name, mirror := mirror, insecure := insecure
      connectivity_success := conn.1, connectivity_time := conn.2
      hub_success := false, hub_time := ⊤
      total_score := ⊤
      status := "Connection Failed" }

/-- The comparison relation realised by `working_results.sort(key=lambda
x: x['total_score'])` (mirror_selector.py:243). -/
def regScoreRel (a b : RegStats) : Prop := a.total_score ≤ b.total_score

instance : DecidableRel regScoreRel :=
  fun a b => inferInstanceAs (Decidable (a.total_score ≤ b.total_score))

instance : IsTotal RegStats regScoreRel := ⟨fun a b => le_total a.total_score b.total_score⟩

instance : IsTrans RegStats regScoreRel := ⟨fun _ _ _ hab hbc => le_trans hab hbc⟩

/-- The numeric-ranking step of `display_results_and_choose`
(mirror_selector.py:241-243): keep only results with status `'Working'`
and stable-sort them ascending by `total_score`. -/
def display_working_results (results : List RegStats) : List RegStats :=
  List.insertionSort regScoreRel (results.filter (fun r => r.status == "Working"))

/-- The separately-reported failures of `display_results_and_choose`
(mirror_selector.py:269): results whose status is not `'Working'`. -/
def display_failed_results (results : List RegStats) : List RegStats :=
  results.filter (fun r => !(r.status == "Working"))

/-- One operator interaction with `input()`: a line of text, a
`KeyboardInterrupt` raised during the read, or end-of-input (Python's
`input()` raises `EOFError` there). -/
inductive OpInput where
  | line (s : String)
  | interrupt
  | eof
deriving DecidableEq, Repr

/-- Models `.strip().lower()` on an operator line.  Modelled from the Python
stdlib for the ASCII inputs the menus expect: leading and trailing
whitespace is removed and ASCII letters are lowered. -/
def pyStripLower (s : String) : String :=
  String.mk
    ((((s.toList.dropWhile Char.isWhitespace).reverse.dropWhile
        Char.isWhitespace).reverse).map Char.toLower)

/-- Models `int(s)` for a stripped menu answer.  Modelled from the Python
stdlib for plain decimal strings: an optional sign followed by one or
more ASCII digits parses to the corresponding integer, anything else
raises `ValueError` (here: `none`). -/
def pyInt (s : String) : Option ℤ :=
  let core : ℤ × List Char :=
    match s.toList with
    | '-' :: t => ((-1 : ℤ), t)
    | '+' :: t => ((1 : ℤ), t)
    | t => ((1 : ℤ), t)
  if core.2 ≠ [] ∧ core.2.all (fun c => c.isDigit) then
    some (core.1 * ((core.2.foldl (fun a c => a * 10 + (c.toNat - '0'.toNat)) 0 : ℕ) : ℤ))
  else none

/-- Result of running one of the interactive selection loops to
completion on a finite input stream. -/
inductive DnsSelOutcome where
  | selected (primary secondary : String)
  | cancelled
  | raised (exc : String)
deriving DecidableEq, Repr

/-- The `while True` selection loop at the end of `select_dns_interactive`
(dns_selector.py:233-260), run against the ranked `working_servers` list
and an explicit operator input stream.  `'q'` and `KeyboardInterrupt`
return `None` (`cancelled`); a non-numeric line raises `ValueError`,
which is caught and re-prompts; an in-range number returns the chosen
server's `(primary, secondary)`; an out-of-range number re-prompts.
`EOFError` (end of input) is caught by neither `except` clause and
propagates. -/
def dns_selection_loop (working_servers : List DnsStats) : List OpInput → DnsSelOutcome
  | [] => .raised "EOFError"
  | .eof :: _ => .raised "EOFError"
  | .interrupt :: _ => .cancelled
  | .line s :: rest =>
    let choice := pyStripLower s
    if choice = "q" then .cancelled
    else
      match pyInt choice with
      | none => dns_selection_loop working_servers rest
      | some n =>
        if 1 ≤ n ∧ n ≤ (working_servers.length : ℤ) then
          match working_servers.get? (n - 1).toNat with
          | some sel => .selected sel.primary sel.secondary
          | none => .raised "IndexError"
        else dns_selection_loop working_servers rest

/-- Result of the registry mirror selection loop. -/
inductive RegSelOutcome where
  | selected (r : RegStats)
  | cancelled
  | raised (exc : String)
deriving DecidableEq, Repr

/-- The `while True` choice loop of `display_results_and_choose`
(mirror_selector.py:305-336): `'q'` and `'0'` return `None`; an in-range
number asks for confirmation (`'y'`/`'yes'` selects, anything else
re-prompts); a non-numeric or out-of-range answer re-prompts.  Neither
`EOFError` nor `KeyboardInterrupt` is caught inside this function, so
both propagate. -/
def registry_selection_loop (working_results : List RegStats) : List OpInput → RegSelOutcome
  | [] => .raised "EOFError"
  | .eof :: _ => .raised "EOFError"
  | .interrupt :: _ => .raised "KeyboardInterrupt"
  | .line s :: rest =>
    let choice := pyStripLower s
    if choice = "q" then .cancelled
    else if choice = "0" then .cancelled
    else
      match pyInt choice with
      | none => registry_selection_loop working_results rest
      | some n =>
        if 1 ≤ n ∧ n ≤ (working_results.length : ℤ) then
          match working_results.get? (n - 1).toNat with
          | some sel =>
            match rest with
            | [] => .raised "EOFError"
            | .eof :: _ => .raised "EOFError"
            | .interrupt :: _ => .raised "KeyboardInterrupt"
            | .line c :: rest2 =>
              if pyStripLower c = "y" ∨ pyStripLower c = "yes" then .selected sel
              else registry_selection_loop working_results rest2
          | none => .raised "IndexError"
        else registry_selection_loop working_results rest
  termination_by inputs => inputs.length
  decreasing_by all_goals (simp_all [List.length_cons]; try omega)

/-- Rational `0.1` as an explicitly reduced literal (kernel-computable). -/
def qTenth : ℚ := ⟨1, 10, by norm_num, by norm_num⟩

/-- Rational `0.2` as an explicitly reduced literal. -/
def qFifth : ℚ := ⟨1, 5, by norm_num, by norm_num⟩

/-- Rational `0.3` as an explicitly reduced literal. -/
def qThreeTenths : ℚ := ⟨3, 10, by norm_num, by norm_num⟩

/-- Rational `0.4` as an explicitly reduced literal. -/
def qTwoFifths : ℚ := ⟨2, 5, by norm_num, by norm_num⟩

/-- Rational `0.6` as an explicitly reduced literal. -/
def qThreeFifths : ℚ := ⟨3, 5, by norm_num, by norm_num⟩

/-- Rational `0.8` as an explicitly reduced literal. -/
def qFourFifths : ℚ := ⟨4, 5, by norm_num, by norm_num⟩

/-- Scenario endpoint A of §8 of the spec: general success rate 100%,
general average 0.1 s, domain-eligible (docker average 0.2 s). -/
def statA : DnsStats :=
  { name := "A", primary := "10.0.0.1", secondary := "10.0.0.2"
    success_count := 4, total_time := ((qTwoFifths : ℚ) : Time)
    avg_time := ((qTenth : ℚ) : Time), success_rate := 100, working := true
    docker_success_count := 3, docker_total_time := ((qThreeFifths : ℚ) : Time)
    docker_avg_time := ((qFifth : ℚ) : Time), docker_success_rate := 100
    docker_working := true, docker_details := [] }

/-- Scenario endpoint B of §8 of the spec: general success rate 40%
(below the 50% threshold, so `working` is false). -/
def statB : DnsStats :=
  { name := "B", primary := "10.0.0.3", secondary := ""
    success_count := 2, total_time := ((qThreeFifths : ℚ) : Time)
    avg_time := ((qThreeTenths : ℚ) : Time), success_rate := 40, working := false
    docker_success_count := 0, docker_total_time := 0
    docker_avg_time := ⊤, docker_success_rate := 0
    docker_working := false, docker_details := [] }

/-- Scenario endpoint C of §8 of the spec: general success rate 60%,
general average 0.3 s, not domain-eligible. -/
def statC : DnsStats :=
  { name := "C", primary := "10.0.0.4", secondary := ""
    success_count := 3, total_time := ((qThreeFifths : ℚ)  : Time)
    avg_time := ((qThreeTenths : ℚ) : Time), success_rate := 60, working := true
    docker_success_count := 0, docker_total_time := 0
    docker_avg_time := ⊤, docker_success_rate := 0
    docker_working := false, docker_details := [] }

/-- A working endpoint used to exhibit a ranking tie: every statistic the
sort key reads is shared with `dupB`; only the name differs. -/
def dupA : DnsStats :=
  { name := "dupA", primary := "10.1.0.1", secondary := ""
    success_count := 4, total_time := 4
    avg_time := ((1 : ℚ) : Time), success_rate := 100, working := true
    docker_success_count := 0, docker_total_time := 0
    docker_avg_time := ⊤, docker_success_rate := 0
    docker_working := false, docker_details := [] }

/-- Identical statistics to `dupA`; only the name differs. -/
def dupB : DnsStats := { dupA with name := "dupB" }

/-- Scenario mirror M of §8 of the spec: connectivity answers in 0.2 s,
the hub manifest fetch answers in 0.4 s. -/
def regM : RegStats :=
  _test_single_registry (.response 200 qFifth) (.response 200 qTwoFifths)
    "Registry_1" "https://mirror-m.example" false

/-- Scenario mirror N of §8 of the spec: connectivity answers in 0.1 s,
the hub manifest fetch fails. -/
def regN : RegStats :=
  _test_single_registry (.response 200 qTenth) .exception
    "Registry_2" "https://mirror-n.example" false

/-- The probe result contract of §4.1/§8 of the spec: exactly one of
`(true, finite ≥ 0)` or `(false, sentinel)`. -/
def probeOK (r : Bool × Time) : Prop :=
  (∃ t : ℚ, 0 ≤ t ∧ r = (true, (t : Time))) ∨ r = (false, (⊤ : Time))

/-- The wall clock did not run backwards during the measured call: the
elapsed value carried by a completed subprocess outcome is nonnegative. -/
def SubprocOutcome.elapsedOK : SubprocOutcome → Bool
  | .completed _ _ t => decide (0 ≤ t)
  | .timeoutExpired => true
  | .subprocessError => true
  | .otherException => true

/-- The wall clock did not run backwards during the measured HTTP call. -/
def HttpOutcome.elapsedOK : HttpOutcome → Bool
  | .response _ t => decide (0 ≤ t)
  | .exception => true

/-- Convenience oracle for a server that never answers: every `nslookup`
times out. -/
def failOracle : DnsOracle := fun _ _ => .timeoutExpired

theorem collect_foldl_acc (l : List (String × Except String DnsStats)) (acc : List DnsStats) :
    l.foldl
        (fun results f =>
          match f.2 with
          | .ok r => results ++ [r]
          | .error _ => results)
        acc
      = acc ++ test_all_dns_servers l := by
  induction l generalizing acc with
  | nil => simp [test_all_dns_servers]
  | cons x t ih =>
    rcases x with ⟨nm, out⟩
    cases out with
    | ok r =>
      show List.foldl _ (acc ++ [r]) t = acc ++ test_all_dns_servers ((nm, Except.ok r) :: t)
      have h2 : test_all_dns_servers ((nm, Except.ok r) :: t)
          = [r] ++ test_all_dns_servers t := ih [r]
      rw [ih (acc ++ [r]), h2, List.append_assoc]
    | error e =>
      show List.foldl _ acc t = acc ++ test_all_dns_servers ((nm, Except.error e) :: t)
      have h2 : test_all_dns_servers ((nm, Except.error e) :: t)
          = test_all_dns_servers t := (ih ([] : List DnsStats)).trans (by simp)
      rw [ih acc, h2]

theorem filterMap_if_eq_nil_iff {α β : Type} (pred : α → Bool) (val : α → β) (l : List α) :
    l.filterMap (fun a => if pred a then some (val a) else none) = []
      ↔ (l.filter pred).length = 0 := by
  induction l with
  | nil => simp
  | cons a t ih => by_cases hp : pred a <;> simp [hp, ih]

theorem sorted_perm_eq_of_nodup_keys {α κ : Type} [LinearOrder κ] (key : α → κ) :
    ∀ (l1 l2 : List α), l1.Perm l2 →
      l1.Pairwise (fun a b => key a ≤ key b) →
      l2.Pairwise (fun a b => key a ≤ key b) →
      (l1.map key).Nodup → l1 = l2 := by
  intro l1
  induction l1 with
  | nil =>
    intro l2 hp _ _ _
    exact hp.nil_eq
  | cons a t ih =>
    intro l2 hp hs1 hs2 hnd
    cases l2 with
    | nil => simpa using hp.eq_nil
    | cons b t2 =>
      have hab : a = b := by
        by_contra hne
        have hbmem : b ∈ a :: t := hp.symm.subset (List.mem_cons_self b t2)
        have hamem : a ∈ b :: t2 := hp.subset (List.mem_cons_self a t)
        have hb_t : b ∈ t := by
          rcases List.mem_cons.mp hbmem with h | h
          · exact absurd h.symm hne
          · exact h
        have ha_t2 : a ∈ t2 := by
          rcases List.mem_cons.mp hamem with h | h
          · exact absurd h hne
          · exact h
        have h1 : key a ≤ key b := (List.pairwise_cons.mp hs1).1 b hb_t
        have h2 : key b ≤ key a := (List.pairwise_cons.mp hs2).1 a ha_t2
        have hkeq : key a = key b := le_antisymm h1 h2
        have hnotin : key a ∉ t.map key := by
          have h' : (key a :: t.map key).Nodup := by simpa using hnd
          exact (List.nodup_cons.mp h').1
        exact hnotin (hkeq ▸ List.mem_map_of_mem key hb_t)
      subst hab
      have hp' : t.Perm t2 := hp.cons_inv
      have htl : t = t2 := by
        refine ih t2 hp' hs1.of_cons hs2.of_cons ?_
        have h' : (key a :: t.map key).Nodup := by simpa using hnd
        exact (List.nodup_cons.mp h').2
      rw [htl]

theorem dns_server_docker_proj (oracle : DnsOracle) (nm prim sec : String) :
    (_test_dns_server oracle nm prim sec).docker_success_count
        = (_test_docker_connectivity oracle prim).docker_success_count ∧
      (_test_dns_server oracle nm prim sec).docker_avg_time
        = (_test_docker_connectivity oracle prim).docker_avg_time ∧
      (_test_dns_server oracle nm prim sec).docker_success_rate
        = (_test_docker_connectivity oracle prim).docker_success_rate := by
  by_cases h : ((test_domains.map (fun d => _test_dns_resolution (oracle prim d))).filterMap
      (fun pr => if pr.1 then some pr.2 else none)).isEmpty = true
  · simp only [_test_dns_server, if_pos h]
    exact ⟨trivial, trivial, trivial⟩
  · simp only [_test_dns_server, if_neg h]
    exact ⟨trivial, trivial, trivial⟩

theorem docker_zero_success (oracle : DnsOracle) (prim : String) :
    (_test_docker_connectivity oracle prim).docker_success_count = 0 →
      (_test_docker_connectivity oracle prim).docker_avg_time = ⊤ ∧
        (_test_docker_connectivity oracle prim).docker_success_rate = 0 := by
  intro hc
  by_cases h : ((docker_domains.map
        (fun d => (d, _test_dns_resolution (oracle prim d)))).filterMap
      (fun pr => if pr.2.1 then some pr.2.2 else none)).isEmpty = true
  · simp only [_test_docker_connectivity, if_pos h]
    exact ⟨trivial, trivial⟩
  · exfalso
    have hcount : ((docker_domains.map
          (fun d => (d, _test_dns_resolution (oracle prim d)))).filter
        (fun pr => pr.2.1)).length = 0 := by
      have hproj : (_test_docker_connectivity oracle prim).docker_success_count
          = ((docker_domains.map
                (fun d => (d, _test_dns_resolution (oracle prim d)))).filter
              (fun pr => pr.2.1)).length := by
        by_cases h' : ((docker_domains.map
              (fun d => (d, _test_dns_resolution (oracle prim d)))).filterMap
            (fun pr => if pr.2.1 then some pr.2.2 else none)).isEmpty = true
        · simp only [_test_docker_connectivity, if_pos h']
        · simp only [_test_docker_connectivity, if_neg h']
      rw [← hproj]
      exact hc
    have hnil := (filterMap_if_eq_nil_iff
      (fun pr : String × Bool × Time => pr.2.1) (fun pr => pr.2.2) _).mpr hcount
    exact h (by simp [hnil])

theorem qScoreArith : qFifth + qTwoFifths * (3/2) = qFourFifths := by
  rw [← Rat.num_div_den qFifth, ← Rat.num_div_den qTwoFifths, ← Rat.num_div_den qFourFifths]
  norm_num [qFifth, qTwoFifths, qFourFifths]

theorem dns_server_general_count (oracle : DnsOracle) (nm prim sec : String) :
    (_test_dns_server oracle nm prim sec).success_count
      = ((test_domains.map (fun d => _test_dns_resolution (oracle prim d))).filter
          (fun pr => pr.1)).length := by
  by_cases h : ((test_domains.map (fun d => _test_dns_resolution (oracle prim d))).filterMap
      (fun pr => if pr.1 then some pr.2 else none)).isEmpty = true
  · simp only [_test_dns_server, if_pos h]
  · simp only [_test_dns_server, if_neg h]

theorem general_zero_success (oracle : DnsOracle) (nm prim sec : String) :
    (_test_dns_server oracle nm prim sec).success_count = 0 →
      (_test_dns_server oracle nm prim sec).avg_time = ⊤ ∧
        (_test_dns_server oracle nm prim sec).success_rate = 0 := by
  intro hc
  by_cases h : ((test_domains.map (fun d => _test_dns_resolution (oracle prim d))).filterMap
      (fun pr => if pr.1 then some pr.2 else none)).isEmpty = true
  · constructor
    · simp only [_test_dns_server, if_pos h]
    · simp only [_test_dns_server, if_pos h]
  · exfalso
    rw [dns_server_general_count] at hc
    have hnil := (filterMap_if_eq_nil_iff
      (fun pr : Bool × Time => pr.1) (fun pr => pr.2) _).mpr hc
    exact h (by simp [hnil])

/-- C1 — counterexample to the claim as stated: Python's `list.sort` is
stable and the sort key `(not docker_working, docker_avg_time, avg_time)`
does not mention the server identity, so two distinct working servers
carrying identical statistics keep their arrival order — permuting the
collected results permutes the ranked output. -/
theorem C1_stable_tie_counterexample :
    List.Perm [dupA, dupB] [dupB, dupA] ∧
      rank_working_servers [dupA, dupB] ≠ rank_working_servers [dupB, dupA] :=
  ⟨List.Perm.swap dupB dupA [], by decide⟩

/-- C1 (amended): the ranking is a pure, randomness-free function of the
collected list, and whenever no two eligible servers share an identical
sort-key tuple the ranked output is independent of arrival order: any
permutation of the input with key-distinct working entries ranks
identically.  Key ties are broken by arrival order, as the
counterexample shows. -/
theorem C1_rank_deterministic_of_distinct_keys (l1 l2 : List DnsStats)
    (hperm : l1.Perm l2)
    (hkeys : ((l1.filter (fun r => r.working)).map dnsSortKey).Nodup) :
    rank_working_servers l1 = rank_working_servers l2 := by
  have hf : (l1.filter (fun r => r.working)).Perm (l2.filter (fun r => r.working)) :=
    hperm.filter _
  have hs : (rank_working_servers l1).Perm (rank_working_servers l2) :=
    ((List.perm_insertionSort dnsKeyRel _).trans hf).trans
      (List.perm_insertionSort dnsKeyRel _).symm
  refine sorted_perm_eq_of_nodup_keys dnsSortKey _ _ hs ?_ ?_ ?_
  · exact List.sorted_insertionSort dnsKeyRel _
  · exact List.sorted_insertionSort dnsKeyRel _
  · exact (((List.perm_insertionSort dnsKeyRel _).map dnsSortKey).nodup_iff).mpr hkeys

/-- C1 witness: the amended determinism theorem applied to a concrete
permuted pair whose working entries have distinct sort keys. -/
theorem C1_rank_deterministic_witness :
    List.Perm [statA, statC] [statC, statA] ∧
      (([statA, statC].filter (fun r => r.working)).map dnsSortKey).Nodup ∧
      rank_working_servers [statA, statC] = rank_working_servers [statC, statA] :=
  ⟨List.Perm.swap statC statA [], by decide,
    C1_rank_deterministic_of_distinct_keys [statA, statC] [statC, statA]
      (List.Perm.swap statC statA []) (by decide)⟩

/-- C2 — counterexample to the claim as stated: a tester invocation that
raises an uncaught exception contributes NO entry to the collected
result list (the loop only prints the failure), so the promised
zero-success entry is missing: with one endpoint X whose task raised,
the returned list is empty. -/
theorem C2_exception_entry_missing :
    test_all_dns_servers [("X", Except.error "boom")] = [] ∧
      ¬ ∃ r ∈ test_all_dns_servers [("X", Except.error "boom")], r.name = "X" := by
  refine ⟨rfl, ?_⟩
  rintro ⟨r, hr, -⟩
  rw [show test_all_dns_servers [("X", Except.error "boom")] = [] from rfl] at hr
  exact absurd hr (List.not_mem_nil r)

/-- C2 (amended): the collection loop appends exactly one entry for each
tester that completes normally, in completion order, and appends nothing
for a tester that raises — the exception is printed and the endpoint
skipped, never recorded as a zero-success entry; sibling entries are
unaffected because collection distributes over concatenation. -/
theorem C2_scheduler_collection :
    (∀ l1 l2 : List (String × Except String DnsStats),
        test_all_dns_servers (l1 ++ l2)
          = test_all_dns_servers l1 ++ test_all_dns_servers l2) ∧
      (∀ (nm : String) (r : DnsStats),
        test_all_dns_servers [(nm, Except.ok r)] = [r]) ∧
      (∀ nm e : String, test_all_dns_servers [(nm, Except.error e)] = []) := by
  refine ⟨?_, fun nm r => rfl, fun nm e => rfl⟩
  intro l1 l2
  show List.foldl _ [] (l1 ++ l2) = _
  rw [List.foldl_append]
  exact collect_foldl_acc l2 (test_all_dns_servers l1)

/-- C3: every probe returns rather than raising (all failure outcomes are
mapped to values), and its result is exactly one of `(true, finite ≥ 0)`
or `(false, ⊤)`: timeouts, connection errors and protocol errors all
yield the failure-sentinel pair, for the DNS resolution probe and both
registry probes. -/
theorem C3_probe_contract (o : SubprocOutcome) (c hb : HttpOutcome)
    (ho : o.elapsedOK = true) (hc : c.elapsedOK = true) (hh : hb.elapsedOK = true) :
    probeOK (_test_dns_resolution o) ∧ probeOK (_test_registry_connectivity c) ∧
      probeOK (_test_docker_hub_connectivity hb) := by
  refine ⟨?_, ?_, ?_⟩
  · cases o with
    | completed rc nx t =>
      by_cases hok : rc = 0 ∧ nx = false
      · exact Or.inl ⟨t, by simpa [SubprocOutcome.elapsedOK] using ho,
          by simp [_test_dns_resolution, hok]⟩
      · exact Or.inr (by simp [_test_dns_resolution, hok])
    | timeoutExpired => exact Or.inr rfl
    | subprocessError => exact Or.inr rfl
    | otherException => exact Or.inr rfl
  · cases c with
    | response st t =>
      by_cases hok : st ∈ [200, 401, 404]
      · exact Or.inl ⟨t, by simpa [HttpOutcome.elapsedOK] using hc,
          by simp [_test_registry_connectivity, hok]⟩
      · exact Or.inr (by simp [_test_registry_connectivity, hok])
    | exception => exact Or.inr rfl
  · cases hb with
    | response st t =>
      by_cases hok : st ∈ [200, 401, 404]
      · exact Or.inl ⟨t, by simpa [HttpOutcome.elapsedOK] using hh,
          by simp [_test_docker_hub_connectivity, hok]⟩
      · exact Or.inr (by simp [_test_docker_hub_connectivity, hok])
    | exception => exact Or.inr rfl

/-- C3 witness: the probe contract at concrete outcomes. -/
theorem C3_probe_contract_witness :
    SubprocOutcome.elapsedOK (.completed 0 false 1) = true ∧
      HttpOutcome.elapsedOK (.response 200 2) = true ∧
      HttpOutcome.elapsedOK .exception = true ∧
      (probeOK (_test_dns_resolution (.completed 0 false 1)) ∧
        probeOK (_test_registry_connectivity (.response 200 2)) ∧
        probeOK (_test_docker_hub_connectivity .exception)) :=
  ⟨by decide, by decide, rfl,
    C3_probe_contract (.completed 0 false 1) (.response 200 2) .exception
      (by decide) (by decide) rfl⟩

/-- C4: the DNS-mode ranked output is ascending in the sort-key tuple
`(not docker_working, docker_avg_time-or-sentinel, avg_time)` compared
lexicographically, and on the spec's three-endpoint scenario — A:
100% general, 0.1 s average, domain-eligible; B: 40% general; C: 60%
general, 0.3 s average, not domain-eligible — the ranked output is
`[A, C]` with B excluded. -/
theorem C4_dns_ranking :
    (∀ results : List DnsStats, List.Sorted dnsKeyRel (rank_working_servers results)) ∧
      rank_working_servers [statA, statB, statC] = [statA, statC] :=
  ⟨fun _ => List.sorted_insertionSort dnsKeyRel _, by decide⟩

/-- C5: a mirror's composite score equals `connectivity + 1.5 * hub` and
its status is `'Working'` exactly when both checks succeed; when either
check fails the score stays at the sentinel and the status is not
`'Working'`, excluding the mirror from the numeric ranking and putting
it in the separately-reported failure list.  On the spec's scenario
(M: 0.2 s connectivity + 0.4 s hub, score 0.8; N: 0.1 s connectivity
with the hub fetch failing) the ranked output is `[M]` and N is
reported separately with status `'Hub Access Failed'`. -/
theorem C5_registry_scoring :
    (∀ (co ho : HttpOutcome) (nm mi : String) (ins : Bool),
      ((_test_single_registry co ho nm mi ins).connectivity_success = true →
        (_test_single_registry co ho nm mi ins).hub_success = true →
          (_test_single_registry co ho nm mi ins).total_score
              = (_test_single_registry co ho nm mi ins).connectivity_time
                  + mulConst (_test_single_registry co ho nm mi ins).hub_time (3/2)
            ∧ (_test_single_registry co ho nm mi ins).status = "Working") ∧
      (((_test_single_registry co ho nm mi ins).connectivity_success = false ∨
          (_test_single_registry co ho nm mi ins).hub_success = false) →
        (_test_single_registry co ho nm mi ins).total_score = ⊤ ∧
          (_test_single_registry co ho nm mi ins).status ≠ "Working")) ∧
      display_working_results [regM, regN] = [regM] ∧
      display_failed_results [regM, regN] = [regN] ∧
      regN.status = "Hub Access Failed" ∧
      regM.total_score = ((qFourFifths : ℚ) : Time) := by
  refine ⟨?_, ?_, ?_, ?_, ?_⟩
  · intro co ho nm mi ins
    by_cases h1 : (_test_registry_connectivity co).1 = true
    · by_cases h2 : (_test_docker_hub_connectivity ho).1 = true
      · constructor
        · intro _ _
          simp [_test_single_registry, h1, h2]
        · intro hbad
          simp [_test_single_registry, h1, h2] at hbad
      · constructor
        · intro _ hhub
          exfalso
          simp [_test_single_registry, h1, h2] at hhub
        · intro _
          simp [_test_single_registry, h1, h2]
    · constructor
      · intro hconn
        exfalso
        simp [_test_single_registry, h1] at hconn
      · intro _
        simp [_test_single_registry, h1]
  · simp [display_working_results, regM, regN, _test_single_registry,
      _test_registry_connectivity, _test_docker_hub_connectivity,
      List.insertionSort, List.orderedInsert]
  · simp [display_failed_results, regM, regN, _test_single_registry,
      _test_registry_connectivity, _test_docker_hub_connectivity]
  · simp [regN, _test_single_registry, _test_registry_connectivity,
      _test_docker_hub_connectivity]
  · have h : regM.total_score = ((qFifth + qTwoFifths * (3/2) : ℚ) : Time) := by
      simp [regM, _test_single_registry, _test_registry_connectivity,
        _test_docker_hub_connectivity, mulConst]
    rw [h, qScoreArith]

/-- C5 witness: the scoring law applied at mirror M's concrete
outcomes. -/
theorem C5_registry_scoring_witness :
    regM.connectivity_success = true ∧ regM.hub_success = true ∧
      (regM.total_score = regM.connectivity_time + mulConst regM.hub_time (3/2) ∧
        regM.status = "Working") :=
  ⟨by decide, by decide,
    (C5_registry_scoring.1 (.response 200 qFifth) (.response 200 qTwoFifths)
        "Registry_1" "https://mirror-m.example" false).1 (by decide) (by decide)⟩

/-- C6: every endpoint in a ranked output passes the general eligibility
threshold — every server in the DNS ranked list has its `working` flag
set, and every mirror in the registry ranked list has status
`'Working'`; ineligible endpoints are excluded entirely by the filter
step, not merely deprioritised. -/
theorem C6_eligibility_filter :
    (∀ (results : List DnsStats) (r : DnsStats),
        r ∈ rank_working_servers results → r.working = true) ∧
      (∀ (results : List RegStats) (r : RegStats),
        r ∈ display_working_results results → r.status = "Working") := by
  constructor
  · intro results r hr
    have hmem : r ∈ results.filter (fun s => s.working) :=
      (List.perm_insertionSort dnsKeyRel _).subset hr
    simpa using (List.mem_filter.mp hmem).2
  · intro results r hr
    have hmem : r ∈ results.filter (fun s => s.status == "Working") :=
      (List.perm_insertionSort regScoreRel _).subset hr
    simpa using (List.mem_filter.mp hmem).2

/-- C6 witness: the filtering law at concrete ranked lists. -/
theorem C6_eligibility_filter_witness :
    statA ∈ rank_working_servers [statA] ∧ statA.working = true ∧
      regM ∈ display_working_results [regM] ∧ regM.status = "Working" := by
  have h1 : statA ∈ rank_working_servers [statA] := by decide
  have h2 : regM ∈ display_working_results [regM] := by
    simp [display_working_results, regM, _test_single_registry,
      _test_registry_connectivity, _test_docker_hub_connectivity,
      List.insertionSort, List.orderedInsert]
  exact ⟨h1, C6_eligibility_filter.1 [statA] statA h1, h2,
    C6_eligibility_filter.2 [regM] regM h2⟩

/-- C7: a battery with a positive attempted count and zero successes
yields the sentinel average and a success rate of exactly 0 — the
division is guarded by the emptiness test and never taken — for both the
general battery (4 attempted domains) and the Docker battery (3
attempted domains). -/
theorem C7_zero_success_sentinel (oracle : DnsOracle) (nm prim sec : String) :
    0 < test_domains.length ∧ 0 < docker_domains.length ∧
      ((_test_dns_server oracle nm prim sec).success_count = 0 →
        (_test_dns_server oracle nm prim sec).avg_time = ⊤ ∧
          (_test_dns_server oracle nm prim sec).success_rate = 0) ∧
      ((_test_dns_server oracle nm prim sec).docker_success_count = 0 →
        (_test_dns_server oracle nm prim sec).docker_avg_time = ⊤ ∧
          (_test_dns_server oracle nm prim sec).docker_success_rate = 0) := by
  refine ⟨by decide, by decide, general_zero_success oracle nm prim sec, ?_⟩
  intro hc
  obtain ⟨hcnt, havg, hrate⟩ := dns_server_docker_proj oracle nm prim sec
  rw [hcnt] at hc
  rw [havg, hrate]
  exact docker_zero_success oracle prim hc

/-- C7 witness: with an oracle under which every `nslookup` times out,
both batteries have zero successes, and the theorem yields sentinel
averages and zero rates. -/
theorem C7_zero_success_sentinel_witness :
    (_test_dns_server failOracle "X" "1.1.1.1" "").success_count = 0 ∧
      (_test_dns_server failOracle "X" "1.1.1.1" "").docker_success_count = 0 ∧
      ((_test_dns_server failOracle "X" "1.1.1.1" "").avg_time = ⊤ ∧
        (_test_dns_server failOracle "X" "1.1.1.1" "").success_rate = 0) ∧
      ((_test_dns_server failOracle "X" "1.1.1.1" "").docker_avg_time = ⊤ ∧
        (_test_dns_server failOracle "X" "1.1.1.1" "").docker_success_rate = 0) :=
  ⟨by decide, by decide,
    (C7_zero_success_sentinel failOracle "X" "1.1.1.1" "").2.2.1 (by decide),
    (C7_zero_success_sentinel failOracle "X" "1.1.1.1" "").2.2.2 (by decide)⟩

/-- C8 — counterexample to the claim as stated: end-of-input during the
DNS selection prompt raises `EOFError`, which is caught by neither
`except ValueError` nor `except KeyboardInterrupt`, so the selector
raises instead of returning "none". -/
theorem C8_eof_raises_counterexample :
    dns_selection_loop [statA] [OpInput.eof] = DnsSelOutcome.raised "EOFError" ∧
      dns_selection_loop [statA] [OpInput.eof] ≠ DnsSelOutcome.cancelled :=
  ⟨rfl, by decide⟩

/-- C8 (amended): invalid input — non-numeric or out-of-range — makes
the DNS selection loop re-prompt (consume the line and continue);
`'q'` and `KeyboardInterrupt` return "none" immediately; in particular
an out-of-range index followed by `'q'` re-prompts once and returns
"none".  But cancellation via end-of-input is not handled: it raises
`EOFError`; and the registry loop does not even catch
`KeyboardInterrupt`. -/
theorem C8_selector_loop :
    (∀ (ws : List DnsStats) (s : String) (rest : List OpInput),
        pyStripLower s = "q" →
          dns_selection_loop ws (.line s :: rest) = .cancelled) ∧
      (∀ (ws : List DnsStats) (rest : List OpInput),
        dns_selection_loop ws (.interrupt :: rest) = .cancelled) ∧
      (∀ (ws : List DnsStats) (s : String) (rest : List OpInput),
        pyStripLower s ≠ "q" → pyInt (pyStripLower s) = none →
          dns_selection_loop ws (.line s :: rest) = dns_selection_loop ws rest) ∧
      (∀ (ws : List DnsStats) (s : String) (rest : List OpInput) (n : ℤ),
        pyStripLower s ≠ "q" → pyInt (pyStripLower s) = some n →
        ¬(1 ≤ n ∧ n ≤ (ws.length : ℤ)) →
          dns_selection_loop ws (.line s :: rest) = dns_selection_loop ws rest) ∧
      (∀ (ws : List DnsStats) (rest : List OpInput),
        dns_selection_loop ws (.eof :: rest) = .raised "EOFError") ∧
      (∀ (wr : List RegStats) (rest : List OpInput),
        registry_selection_loop wr (.interrupt :: rest) = .raised "KeyboardInterrupt") ∧
      dns_selection_loop [statA] [.line "5", .line "q"] = .cancelled := by
  refine ⟨?_, fun ws rest => rfl, ?_, ?_, fun ws rest => rfl, ?_, by decide⟩
  · intro ws s rest h
    simp [dns_selection_loop, h]
  · intro ws s rest h1 h2
    simp [dns_selection_loop, h1, h2]
  · intro ws s rest n h1 h2 h3
    simp [dns_selection_loop, h1, h2, h3]
  · intro wr rest
    simp [registry_selection_loop]

/-- C8 witness: the amended selector behaviour at concrete inputs. -/
theorem C8_selector_loop_witness :
    pyStripLower " Q " = "q" ∧
      dns_selection_loop [statA] [.line " Q ", .eof] = .cancelled ∧
      pyStripLower "abc" ≠ "q" ∧ pyInt (pyStripLower "abc") = none ∧
      dns_selection_loop [statA] [.line "abc", .interrupt]
          = dns_selection_loop [statA] [.interrupt] ∧
      pyStripLower "7" ≠ "q" ∧ pyInt (pyStripLower "7") = some 7 ∧
      ¬((1 : ℤ) ≤ 7 ∧ (7 : ℤ) ≤ (([statA] : List DnsStats).length : ℤ)) ∧
      dns_selection_loop [statA] [.line "7", .eof]
          = dns_selection_loop [statA] [.eof] :=
  ⟨by decide, C8_selector_loop.1 [statA] " Q " [.eof] (by decide),
    by decide, by decide,
    C8_selector_loop.2.2.1 [statA] "abc" [.interrupt] (by decide) (by decide),
    by decide, by decide, by decide,
    C8_selector_loop.2.2.2.1 [statA] "7" [.eof] 7 (by decide) (by decide) (by decide)⟩

/-- C9: both probe batteries are issued only against the primary address
— the oracle is never consulted with the secondary — so two endpoints
differing only in their secondary address produce identical statistics,
the secondary being merely copied into the returned record. -/
theorem C9_secondary_not_probed (oracle : DnsOracle) (nm prim sec1 sec2 : String) :
    _test_dns_server oracle nm prim sec1
      = { _test_dns_server oracle nm prim sec2 with secondary := sec1 } := by
  by_cases h : ((test_domains.map (fun d => _test_dns_resolution (oracle prim d))).filterMap
      (fun pr => if pr.1 then some pr.2 else none)).isEmpty = true
  · simp only [_test_dns_server, if_pos h]
  · simp only [_test_dns_server, if_neg h]

/-- C10: for every registry test result the total score is finite (not
the `⊤` sentinel) iff the status is `'Working'`, which holds iff both
the connectivity and hub checks succeeded; and when connectivity fails
the hub probe is never issued: the result is independent of the hub
outcome, with `hub_success = false` and the sentinel hub time. -/
theorem C10_registry_invariant (co ho : HttpOutcome) (nm mi : String) (ins : Bool) :
    ((_test_single_registry co ho nm mi ins).total_score ≠ ⊤ ↔
        (_test_single_registry co ho nm mi ins).status = "Working") ∧
      ((_test_single_registry co ho nm mi ins).status = "Working" ↔
        ((_test_single_registry co ho nm mi ins).connectivity_success = true ∧
          (_test_single_registry co ho nm mi ins).hub_success = true)) ∧
      ((_test_single_registry co ho nm mi ins).connectivity_success = false →
        (_test_single_registry co ho nm mi ins).hub_success = false ∧
          (_test_single_registry co ho nm mi ins).hub_time = ⊤ ∧
          ∀ ho2 : HttpOutcome,
            _test_single_registry co ho2 nm mi ins
              = _test_single_registry co ho nm mi ins) := by
  cases co with
  | exception =>
    refine ⟨?_, ?_, ?_⟩
    · simp [_test_single_registry, _test_registry_connectivity]
    · simp [_test_single_registry, _test_registry_connectivity]
    · intro _
      exact ⟨rfl, rfl, fun ho2 => rfl⟩
  | response st t =>
    by_cases hst : st ∈ [200, 401, 404]
    · cases ho with
      | exception =>
        refine ⟨?_, ?_, ?_⟩
        · simp [_test_single_registry, _test_registry_connectivity,
            _test_docker_hub_connectivity, hst]
        · simp [_test_single_registry, _test_registry_connectivity,
            _test_docker_hub_connectivity, hst]
        · intro hbad
          exfalso
          simp [_test_single_registry, _test_registry_connectivity,
            _test_docker_hub_connectivity, hst] at hbad
      | response st2 t2 =>
        by_cases hst2 : st2 ∈ [200, 401, 404]
        · refine ⟨?_, ?_, ?_⟩
          · simp [_test_single_registry, _test_registry_connectivity,
              _test_docker_hub_connectivity, hst, hst2, mulConst,
              WithTop.add_ne_top]
            exact WithTop.mul_ne_top WithTop.coe_ne_top WithTop.coe_ne_top
          · simp [_test_single_registry, _test_registry_connectivity,
              _test_docker_hub_connectivity, hst, hst2]
          · intro hbad
            exfalso
            simp [_test_single_registry, _test_registry_connectivity,
              _test_docker_hub_connectivity, hst, hst2] at hbad
        · refine ⟨?_, ?_, ?_⟩
          · simp [_test_single_registry, _test_registry_connectivity,
              _test_docker_hub_connectivity, hst, hst2]
          · simp [_test_single_registry, _test_registry_connectivity,
              _test_docker_hub_connectivity, hst, hst2]
          · intro hbad
            exfalso
            simp [_test_single_registry, _test_registry_connectivity,
              _test_docker_hub_connectivity, hst, hst2] at hbad
    · refine ⟨?_, ?_, ?_⟩
      · simp [_test_single_registry, _test_registry_connectivity, hst]
      · simp [_test_single_registry, _test_registry_connectivity, hst]
      · intro _
        refine ⟨?_, ?_, fun ho2 => ?_⟩ <;>
          simp [_test_single_registry, _test_registry_connectivity, hst]

/-- C10 witness: the invariant applied where the connectivity check
fails. -/
theorem C10_registry_invariant_witness :
    (_test_single_registry .exception .exception "R" "https://r.example"
        false).connectivity_success = false ∧
      (_test_single_registry .exception .exception "R" "https://r.example"
          false).hub_success = false ∧
      (_test_single_registry .exception .exception "R" "https://r.example"
          false).hub_time = ⊤ :=
  ⟨by decide,
    ((C10_registry_invariant .exception .exception "R" "https://r.example"
        false).2.2 (by decide)).1,
    ((C10_registry_invariant .exception .exception "R" "https://r.example"
        false).2.2 (by decide)).2.1⟩

end Docker4Iran
